import Mathlib

/-!
Shallow embedding of `paperdownload.py` (class `SciHubDownloader`).

The program is a sequential batch job: load a list of DOIs, and for each DOI
try each Sci-Hub mirror in order — fetch the page, parse the HTML, extract a
download link with an XPath query, normalize the URL, stream the file to disk
in 1024-byte chunks — logging exceptions to `errlog.txt` and continuing with
the next mirror.

Network and filesystem effects are modelled by explicit data: a mirror's
behaviour is the response (or exception) of each GET it would answer, a
response body is its sequence of chunks, the error log is the string appended
to `errlog.txt`, and console output is the list of printed lines.
-/

/- ---------------------------------------------------------------- -/
/- Python string helpers used by `load_doi_list` and `get_file_size` -/
/- ---------------------------------------------------------------- -/

/-- The characters Python's `str.strip()` removes (ASCII whitespace set). -/
def isPyWhitespace (c : Char) : Bool :=
  c = ' ' || c = '\t' || c = '\n' || c = '\r' || c = '\x0B' || c = '\x0C'

/-- Python `str.strip()`: drop leading and trailing whitespace. -/
def pyStrip (s : String) : String :=
  String.mk (((s.data.dropWhile isPyWhitespace).reverse.dropWhile isPyWhitespace).reverse)

/-- Helper for `pyReadlines`: split a character stream into lines, each line
keeping its terminating newline (the final line may lack one). -/
def readlinesAux : List Char → List Char → List (List Char)
  | [], [] => []
  | [], acc => [acc.reverse]
  | c :: rest, acc =>
      if c = '\n' then (acc.reverse ++ ['\n']) :: readlinesAux rest []
      else readlinesAux rest (c :: acc)

/-- Python `f.readlines()` on the file's text content: the list of lines, each
including its trailing newline when present. -/
def pyReadlines (content : String) : List String :=
  (readlinesAux content.data []).map String.mk

/-- `SciHubDownloader.load_doi_list`: `[doi.strip() for doi in f.readlines()]`,
with the file's content given as a string. No line is filtered out. -/
def load_doi_list (content : String) : List String :=
  (pyReadlines content).map pyStrip

/-- The text content of a file whose lines are the given strings, each
terminated by a newline. -/
def joinLines : List String → String
  | [] => ""
  | l :: rest => l ++ "\n" ++ joinLines rest

/-- Digit-string accumulator for `pyParseInt`. -/
def parseDigitsAux : List Char → Nat → Option Nat
  | [], acc => some acc
  | c :: cs, acc =>
      if c.isDigit then parseDigitsAux cs (acc * 10 + (c.toNat - 48)) else none

/-- A non-empty all-digit run, as a number. -/
def parseDigits (ds : List Char) : Option Nat :=
  match ds with
  | [] => none
  | _ :: _ => parseDigitsAux ds 0

/-- Python `int(s)` on a header value: surrounding whitespace stripped,
optional sign, then a non-empty digit run; `none` models the `ValueError`
raised on anything else.  (PEP-515 digit-group underscores are not modelled;
`content-length` values never contain them.) -/
def pyParseInt (s : String) : Option Int :=
  match (pyStrip s).data with
  | [] => none
  | '+' :: ds => (parseDigits ds).map (fun n => (n : Int))
  | '-' :: ds => (parseDigits ds).map (fun n => -(n : Int))
  | ds => (parseDigits ds).map (fun n => (n : Int))

/- ---------------------------------------------------------------- -/
/- `ensure_scheme` and `sanitize_filename`                           -/
/- ---------------------------------------------------------------- -/

/-- Python `str.startswith`: the argument is a prefix of the string. -/
def pyStartsWith (s p : String) : Bool := p.data.isPrefixOf s.data

/-- `SciHubDownloader.ensure_scheme`: prepend `https:` when the URL does not
start with `http`. -/
def ensure_scheme (url : String) : String :=
  if pyStartsWith url "http" then url else "https:" ++ url

/-- The character class of the regex `[\/:*?"<>|]` in `sanitize_filename`.
Inside the class `\/` is an escaped forward slash, so the class matches
`/ : * ? " < > |` — the backslash itself is NOT in the class. -/
def forbiddenChar (c : Char) : Bool :=
  c = '/' || c = ':' || c = '*' || c = '?' || c = '"' || c = '<' || c = '>' || c = '|'

/-- The substitution applied to one character: a match becomes `_`. -/
def replaceChar (c : Char) : Char :=
  if forbiddenChar c then '_' else c

/-- `re.sub(r'[\/:*?"<>|]', '_', doi)`: each matched character becomes `_`. -/
def replaceForbidden (doi : String) : String :=
  String.mk (doi.data.map replaceChar)

/-- `SciHubDownloader.sanitize_filename`: the regex substitution, then `.pdf`
appended. -/
def sanitize_filename (doi : String) : String :=
  replaceForbidden doi ++ ".pdf"

/- ---------------------------------------------------------------- -/
/- `get_file_size`                                                   -/
/- ---------------------------------------------------------------- -/

/-- `SciHubDownloader.get_file_size`.  Input: the `content-length` header when
present (`req_file.headers['content-length']` raises `KeyError` when absent,
which the function catches and turns into `None`).  A present but
non-integer value makes `int(...)` raise `ValueError`, which is NOT caught
here and escapes to the caller (`Except.error`).  The returned pair is the
parsed size (`none` = unknown) and the console line printed.  The
`{content_length/1024:.2f} KB` float rendering of the known-size line is
elided; the line keeps the raw byte count instead. -/
def get_file_size (contentLength : Option String) (index total : Nat) :
    Except String (Option Int × String) :=
  let ip1 := index + 1
  match contentLength with
  | none => .ok (none, s!"Downloading paper {ip1}/{total}, size: unknown")
  | some v =>
      match pyParseInt v with
      | none => .error (s!"invalid literal for int() with base 10: {v}")
      | some n => .ok (some n, s!"Downloading paper {ip1}/{total}, size: {n} B")

/- ---------------------------------------------------------------- -/
/- Retry policy (`create_session_with_retry`)                        -/
/- ---------------------------------------------------------------- -/

/-- The `urllib3.util.retry.Retry` configuration built by
`create_session_with_retry` (its default arguments: `retries=3`,
`backoff_factor=0.3`, `status_forcelist=(500, 502, 504)`). -/
structure RetryConfig where
  total : Nat
  read : Nat
  connect : Nat
  backoff_factor : ℚ
  status_forcelist : List Nat
deriving Repr, DecidableEq

/-- `SciHubDownloader.create_session_with_retry` called with its defaults. -/
def create_session_with_retry : RetryConfig :=
  { total := 3
    read := 3
    connect := 3
    backoff_factor := 3 / 10
    status_forcelist := [500, 502, 504] }

/-- What one low-level attempt of a logical request can produce: a connection
failure, a read failure, or a response with a status code. -/
inductive AttemptOutcome where
  | connFailure
  | readFailure
  | status (code : Nat)
deriving Repr, DecidableEq

/-- Modelled from the spec: whether the retry mechanism retries after this
outcome — connection failures, read failures, and the configured
server-error status codes are retried; any other response is final. -/
def retryable (cfg : RetryConfig) (o : AttemptOutcome) : Bool :=
  match o with
  | .connFailure => true
  | .readFailure => true
  | .status c => cfg.status_forcelist.contains c

/-- Modelled from the spec: the exponential backoff delay before retry `k`
(0-based): the base factor with the multiplier doubling each attempt. -/
def backoffDelay (cfg : RetryConfig) (k : Nat) : ℚ :=
  cfg.backoff_factor * 2 ^ k

/-- Modelled from the spec: the retry loop.  `outcomes k` is what the `k`-th
low-level attempt would produce; `remaining` attempts are allowed.  A
non-retryable response is returned to the caller; a retryable outcome
consumes one attempt; an exhausted budget surfaces as one exception. -/
def retryLoop (cfg : RetryConfig) (outcomes : Nat → AttemptOutcome) :
    Nat → Nat → Except String Nat
  | _, 0 => .error "Max retries exceeded"
  | k, r + 1 =>
      match outcomes k with
      | .status c =>
          if cfg.status_forcelist.contains c then retryLoop cfg outcomes (k + 1) r
          else .ok c
      | _ => retryLoop cfg outcomes (k + 1) r

/-- Modelled from the spec: one logical GET through the session built by
`create_session_with_retry`: at most `total` attempts, the caller sees one
eventual response status or one eventual exception. -/
def sessionGet (outcomes : Nat → AttemptOutcome) : Except String Nat :=
  retryLoop create_session_with_retry outcomes 0 create_session_with_retry.total

/- ---------------------------------------------------------------- -/
/- The download routine (`SciHubDownloader.download`)                -/
/- ---------------------------------------------------------------- -/

/-- The initial page GET's response: its status, whether `etree.HTML` parses
the content to a document (`root is not None`), and the list of strings the
XPath query extracts from it. -/
structure PageResponse where
  status_code : Nat
  parses : Bool
  xpath : List String
deriving Repr, DecidableEq

/-- The streaming file GET's response: its status, the `content-length`
header when present, and the body as `iter_content`'s chunk sequence. -/
structure FileResponse where
  status_code : Nat
  content_length : Option String
  chunks : List (List Nat)
deriving Repr, DecidableEq

/-- What one mirror does for a given DOI: the outcome of the page GET, and
the outcome of the file GET as a function of the requested URL.  An
`Except.error` is a Python exception raised by the request. -/
structure MirrorBehavior where
  page : Except String PageResponse
  file : String → Except String FileResponse

/-- The `for chunk in response.iter_content(chunk_size=1024)` loop body:
`if chunk: file.write(chunk)` — empty (keep-alive) chunks are skipped,
non-empty chunks are appended to the file in order. -/
def writeChunks (chunks : List (List Nat)) : List Nat :=
  chunks.foldl (fun acc chunk => if chunk.isEmpty then acc else acc ++ chunk) []

/-- How one iteration of the mirror loop ends, when no exception escapes:
`continueNext` is the `continue` after a non-200 page status; `earlyReturn`
is the `return` on parse failure, missing XPath match, or non-200 file
status; `success` is the completed download (console lines printed, file
name, bytes written). -/
inductive AttemptStep where
  | continueNext (msg : String)
  | earlyReturn (msg : String)
  | success (console : List String) (fileName : String) (bytes : List Nat)
deriving Repr, DecidableEq

/-- The body of the `try:` block for one mirror (lines 82–126 of the source),
propagating any exception as `Except.error`. -/
def tryBody (doi scihub_url : String) (b : MirrorBehavior) (index total : Nat) :
    Except String AttemptStep :=
  match b.page with
  | .error e => .error e
  | .ok req =>
      let sc := req.status_code
      if sc ≠ 200 then
        .ok (.continueNext
          s!"Error downloading {doi}: Failed to fetch the webpage from {scihub_url}, status code: {sc}")
      else if req.parses = false then
        .ok (.earlyReturn s!"Error downloading {doi}: Failed to parse HTML content")
      else
        match req.xpath with
        | [] => .ok (.earlyReturn s!"Error downloading {doi}: No download link found")
        | link :: _ =>
            match b.file (ensure_scheme link) with
            | .error e => .error e
            | .ok req_file =>
                let fsc := req_file.status_code
                if fsc ≠ 200 then
                  .ok (.earlyReturn
                    s!"Error downloading {doi}: Failed to retrieve file, status code: {fsc}")
                else
                  match get_file_size req_file.content_length index total with
                  | .error e => .error e
                  | .ok (_, sizeLine) =>
                      let file_name := sanitize_filename doi
                      .ok (.success
                        [sizeLine, s!"Downloaded {file_name} successfully!"]
                        file_name (writeChunks req_file.chunks))

/-- Everything `download` did for one DOI: console lines in order, the text
appended to `errlog.txt`, the file written (name and bytes) when one was,
and whether the final `after trying all Sci-Hub URLs` message fired. -/
structure DownloadResult where
  console : List String
  errlog : String
  written : Option (String × List Nat)
  finalFailure : Bool
deriving Repr, DecidableEq

/-- `SciHubDownloader.download`'s mirror loop over the (mirror URL,
behaviour) list.  A non-200 page status continues with the next mirror; the
three early returns abandon the remaining mirrors; a caught exception prints,
appends one errlog line, and continues with the next mirror; an exhausted
list prints the final failure message. -/
def downloadLoop (doi : String) (index total : Nat) :
    List (String × MirrorBehavior) → DownloadResult
  | [] =>
      { console := [s!"Failed to download {doi} after trying all Sci-Hub URLs."]
        errlog := ""
        written := none
        finalFailure := true }
  | (u, b) :: rest =>
      match tryBody doi u b index total with
      | .ok (.continueNext msg) =>
          let r := downloadLoop doi index total rest
          { r with console := msg :: r.console }
      | .ok (.earlyReturn msg) =>
          { console := [msg], errlog := "", written := none, finalFailure := false }
      | .ok (.success cons fn bytes) =>
          { console := cons, errlog := "", written := some (fn, bytes), finalFailure := false }
      | .error e =>
          let r := downloadLoop doi index total rest
          { console := (s!"Error downloading {doi} from {u}: {e}") :: r.console
            errlog := s!"{doi} from {u} - {e}\n" ++ r.errlog
            written := r.written
            finalFailure := r.finalFailure }

/-- `SciHubDownloader.run`: process each DOI in order with its index; one
DOI's result never stops the batch.  `behaviors doi u` is mirror `u`'s
behaviour for `doi`. -/
def runBatch (total : Nat) (mirrors : List String)
    (behaviors : String → String → MirrorBehavior) :
    Nat → List String → List DownloadResult
  | _, [] => []
  | i, doi :: rest =>
      downloadLoop doi i total (mirrors.map (fun u => (u, behaviors doi u)))
        :: runBatch total mirrors behaviors (i + 1) rest

/-- The attempt for mirror `(u, b)` ends in the loop's continue path: either
the non-200-page `continue` or a caught exception. -/
def attemptContinues (doi u : String) (b : MirrorBehavior) (index total : Nat) : Prop :=
  (∃ msg, tryBody doi u b index total = .ok (.continueNext msg)) ∨
  (∃ e, tryBody doi u b index total = .error e)

/- ---------------------------------------------------------------- -/
/- Concrete mirror behaviours exercising each path (witness inputs)  -/
/- ---------------------------------------------------------------- -/

/-- A mirror answering the page GET with a 404. -/
def bNon200 : MirrorBehavior :=
  { page := .ok ⟨404, true, []⟩, file := fun _ => .error "unused" }

/-- A mirror whose 200 response does not parse as HTML. -/
def bNoParse : MirrorBehavior :=
  { page := .ok ⟨200, false, []⟩, file := fun _ => .error "unused" }

/-- A mirror whose parsed page has no XPath match. -/
def bNoMatch : MirrorBehavior :=
  { page := .ok ⟨200, true, []⟩, file := fun _ => .error "unused" }

/-- A mirror whose embedded link answers the file GET with a 500. -/
def bFileNon200 : MirrorBehavior :=
  { page := .ok ⟨200, true, ["//dl.org/p.pdf"]⟩, file := fun _ => .ok ⟨500, none, []⟩ }

/-- A mirror serving the file: known size 3, chunks with a keep-alive hole. -/
def bGood : MirrorBehavior :=
  { page := .ok ⟨200, true, ["//dl.org/p.pdf"]⟩
    file := fun _ => .ok ⟨200, some "3", [[1, 2], [], [3]]⟩ }

/-- A mirror whose page GET raises. -/
def bPageExc : MirrorBehavior :=
  { page := .error "ConnectionError: refused", file := fun _ => .error "unused" }

/-- A mirror whose file GET raises after a good page. -/
def bFileExc : MirrorBehavior :=
  { page := .ok ⟨200, true, ["//dl.org/p.pdf"]⟩, file := fun _ => .error "ReadTimeout" }

/-- A mirror serving the file with a malformed `content-length` header. -/
def bMalformed : MirrorBehavior :=
  { page := .ok ⟨200, true, ["//dl.org/p.pdf"]⟩
    file := fun _ => .ok ⟨200, some "12a3", [[1]]⟩ }

/-- A transient 502 on the first low-level attempt, then 200. -/
def outcomes502then200 : Nat → AttemptOutcome :=
  fun k => if k = 0 then .status 502 else .status 200

/-- Every low-level attempt answers 502. -/
def outcomesAll502 : Nat → AttemptOutcome := fun _ => .status 502

/- ---------------------------------------------------------------- -/
/- Helper lemmas                                                     -/
/- ---------------------------------------------------------------- -/

/-- The substitution never leaves a character of the regex class behind. -/
lemma replaceChar_not_forbidden (c : Char) : forbiddenChar (replaceChar c) = false := by
  unfold replaceChar
  by_cases h : forbiddenChar c = true
  · simp [h]; decide
  · simp at h; simp [h]

/-- The per-character substitution is idempotent. -/
lemma replaceChar_idem (c : Char) : replaceChar (replaceChar c) = replaceChar c := by
  unfold replaceChar
  by_cases h : forbiddenChar c = true
  · simp [h]
  · simp at h; simp [h]

/-- `replaceForbidden` distributes over string append. -/
lemma replaceForbidden_append (a b : String) :
    replaceForbidden (a ++ b) = replaceForbidden a ++ replaceForbidden b := by
  unfold replaceForbidden
  cases a with
  | mk da =>
    cases b with
    | mk db =>
      show String.mk ((da ++ db).map replaceChar) = String.mk (da.map replaceChar ++ db.map replaceChar)
      rw [List.map_append]

/-- `replaceForbidden` is idempotent. -/
lemma replaceForbidden_idem (s : String) :
    replaceForbidden (replaceForbidden s) = replaceForbidden s := by
  unfold replaceForbidden
  show String.mk ((s.data.map replaceChar).map replaceChar) = String.mk (s.data.map replaceChar)
  rw [List.map_map]
  congr 1
  exact List.map_congr_left (fun c _ => replaceChar_idem c)

/-- The foldl of the chunk-writing loop appends the flattening. -/
lemma writeChunks_foldl (chunks : List (List Nat)) : ∀ acc : List Nat,
    chunks.foldl (fun acc chunk => if chunk.isEmpty then acc else acc ++ chunk) acc
      = acc ++ chunks.flatten := by
  induction chunks with
  | nil => intro acc; simp
  | cons c cs ih =>
      intro acc
      rw [List.foldl_cons]
      rcases eq_or_ne c [] with hc | hc
      · subst hc
        show List.foldl (fun acc chunk => if chunk.isEmpty then acc else acc ++ chunk) acc cs
          = acc ++ ([] :: cs).flatten
        rw [ih]
        simp
      · obtain ⟨x, xs, rfl⟩ := List.exists_cons_of_ne_nil hc
        show List.foldl (fun acc chunk => if chunk.isEmpty then acc else acc ++ chunk)
            (acc ++ (x :: xs)) cs = acc ++ ((x :: xs) :: cs).flatten
        rw [ih]
        simp

/-- Flattening ignores empty chunks. -/
lemma flatten_filter_ne_nil (chunks : List (List Nat)) :
    (chunks.filter (fun c => !c.isEmpty)).flatten = chunks.flatten := by
  induction chunks with
  | nil => rfl
  | cons c cs ih =>
      by_cases hc : c.isEmpty = true
      · rw [List.isEmpty_iff] at hc
        simp [hc, List.filter, ih]
      · simp [List.filter, hc, ih]

/- ---------------------------------------------------------------- -/
/- C7: `ensure_scheme`                                               -/
/- ---------------------------------------------------------------- -/

/-- C7: for every string `url`, `ensure_scheme` returns `https:` prepended to
`url` when `url` does not start with `http`, and returns `url` unchanged when
it does. -/
theorem ensure_scheme_spec (url : String) :
    (pyStartsWith url "http" = false → ensure_scheme url = "https:" ++ url) ∧
    (pyStartsWith url "http" = true → ensure_scheme url = url) := by
  constructor
  · intro h; simp [ensure_scheme, h]
  · intro h; simp [ensure_scheme, h]

/-- Witness for C7: a protocol-relative link gets `https:` prepended; a link
already starting with `http` passes through unchanged. -/
theorem ensure_scheme_spec_witness :
    ensure_scheme "//dl.org/p.pdf" = "https://dl.org/p.pdf" ∧
    ensure_scheme "http://dl.org/p.pdf" = "http://dl.org/p.pdf" := by
  constructor
  · exact (ensure_scheme_spec "//dl.org/p.pdf").1 (by decide)
  · exact (ensure_scheme_spec "http://dl.org/p.pdf").2 (by decide)

/- ---------------------------------------------------------------- -/
/- C3: `sanitize_filename`                                           -/
/- ---------------------------------------------------------------- -/

/-- Counterexample for C3: the regex class `[\/:*?"<>|]` does not contain the
backslash (inside the class `\/` is just `/`), so a backslash survives
sanitization; and the function is not idempotent, because every application
appends another `.pdf`. -/
theorem sanitize_filename_claim_false :
    sanitize_filename "a\\b" ≠ "a_b.pdf" ∧
    sanitize_filename (sanitize_filename "x") ≠ sanitize_filename "x" := by
  constructor
  · decide
  · decide

/-- C3 (amended): `sanitize_filename` is total; every character of the set
`/ : * ? " < > |` (the backslash is NOT in the set) is replaced by `_`; the
result is the replaced string suffixed with `.pdf`; the character replacement
pass is idempotent, but the whole function is not — a second application
appends a second `.pdf`. -/
theorem sanitize_filename_amended (s : String) :
    (∀ c ∈ (replaceForbidden s).data, forbiddenChar c = false) ∧
    replaceForbidden (replaceForbidden s) = replaceForbidden s ∧
    sanitize_filename s = replaceForbidden s ++ ".pdf" ∧
    sanitize_filename (sanitize_filename s) = replaceForbidden s ++ ".pdf" ++ ".pdf" := by
  refine ⟨?_, replaceForbidden_idem s, rfl, ?_⟩
  · intro c hc
    unfold replaceForbidden at hc
    rcases List.mem_map.mp hc with ⟨a, _, rfl⟩
    exact replaceChar_not_forbidden a
  · show replaceForbidden (replaceForbidden s ++ ".pdf") ++ ".pdf"
        = replaceForbidden s ++ ".pdf" ++ ".pdf"
    rw [replaceForbidden_append, replaceForbidden_idem]
    congr 1

/-- Witness for C3 (amended): a colon is replaced, `.pdf` is appended, and a
second application appends a second `.pdf`. -/
theorem sanitize_filename_amended_witness :
    sanitize_filename "a:b" = "a_b.pdf" ∧
    sanitize_filename (sanitize_filename "a:b") = "a_b.pdf.pdf" := by
  have h := sanitize_filename_amended "a:b"
  exact ⟨h.2.2.1.trans (by decide), h.2.2.2.trans (by decide)⟩

/- ---------------------------------------------------------------- -/
/- C9: chunked writing                                               -/
/- ---------------------------------------------------------------- -/

/-- C9: the bytes written by the chunk loop are exactly the in-order
concatenation of the non-empty chunks, which equals the concatenation of all
chunks of the source stream — dropping zero-length keep-alive chunks does not
corrupt the output. -/
theorem writeChunks_spec (chunks : List (List Nat)) :
    writeChunks chunks = (chunks.filter (fun c => !c.isEmpty)).flatten ∧
    writeChunks chunks = chunks.flatten := by
  have h : writeChunks chunks = chunks.flatten := by
    unfold writeChunks
    simpa using writeChunks_foldl chunks []
  exact ⟨h.trans (flatten_filter_ne_nil chunks).symm, h⟩

/- ---------------------------------------------------------------- -/
/- C8: `load_doi_list`                                               -/
/- ---------------------------------------------------------------- -/

/-- `readlinesAux` splits off a newline-terminated line at the front. -/
lemma readlinesAux_line (l : List Char) (hl : '\n' ∉ l) : ∀ (rest acc : List Char),
    readlinesAux (l ++ '\n' :: rest) acc
      = (acc.reverse ++ l ++ ['\n']) :: readlinesAux rest [] := by
  induction l with
  | nil => intro rest acc; simp [readlinesAux]
  | cons c cs ih =>
      intro rest acc
      have hc : ¬ (c = '\n') := by
        intro h; exact hl (h ▸ List.mem_cons_self c cs)
      have hcs : '\n' ∉ cs := fun h => hl (List.mem_cons_of_mem c h)
      show readlinesAux (c :: (cs ++ '\n' :: rest)) acc = _
      rw [readlinesAux, if_neg hc, ih hcs rest (c :: acc)]
      simp

/-- A string is the pack of its characters. -/
lemma mk_data (s : String) : String.mk s.data = s := by cases s; rfl

/-- Stripping ignores a trailing newline. -/
lemma stripList_newline (d : List Char) :
    pyStrip (String.mk (d ++ ['\n'])) = pyStrip (String.mk d) := by
  unfold pyStrip
  show String.mk ((((d ++ ['\n']).dropWhile isPyWhitespace).reverse.dropWhile
        isPyWhitespace).reverse)
     = String.mk (((d.dropWhile isPyWhitespace).reverse.dropWhile isPyWhitespace).reverse)
  rw [List.dropWhile_append]
  by_cases hd : (d.dropWhile isPyWhitespace).isEmpty = true
  · rw [if_pos hd]
    rw [List.isEmpty_iff] at hd
    rw [hd]
    simp [List.dropWhile]
  · rw [if_neg hd]
    rw [List.reverse_append]
    show String.mk (List.dropWhile isPyWhitespace
        ('\n' :: (d.dropWhile isPyWhitespace).reverse)).reverse = _
    rw [List.dropWhile_cons_of_pos (by decide)]

/-- `readlines` returns exactly the newline-terminated lines of the file. -/
lemma pyReadlines_joinLines (lines : List String) (h : ∀ l ∈ lines, '\n' ∉ l.data) :
    pyReadlines (joinLines lines) = lines.map (fun l => String.mk (l.data ++ ['\n'])) := by
  induction lines with
  | nil => rfl
  | cons l rest ih =>
      have hl : '\n' ∉ l.data := h l (List.mem_cons_self l rest)
      have hrest : ∀ x ∈ rest, '\n' ∉ x.data := fun x hx => h x (List.mem_cons_of_mem l hx)
      unfold pyReadlines
      show ((readlinesAux (joinLines (l :: rest)).data []).map String.mk) = _
      have hdata : (joinLines (l :: rest)).data = l.data ++ '\n' :: (joinLines rest).data := by
        show (l ++ "\n" ++ joinLines rest).data = _
        rw [String.data_append, String.data_append, List.append_assoc]
        rfl
      rw [hdata, readlinesAux_line l.data hl]
      simp only [List.reverse_nil, List.nil_append, List.map_cons]
      rw [show (readlinesAux (joinLines rest).data []).map String.mk
            = pyReadlines (joinLines rest) from rfl]
      rw [ih hrest]

/-- C8: for a file made of the given lines, `load_doi_list` returns the lines
in input order, each whitespace-stripped, with NO line filtered out — the
length is preserved, and a whitespace-only input line contributes the empty
string to the returned sequence. -/
theorem load_doi_list_spec (lines : List String) (hnl : ∀ l ∈ lines, '\n' ∉ l.data) :
    load_doi_list (joinLines lines) = lines.map pyStrip ∧
    (load_doi_list (joinLines lines)).length = lines.length ∧
    ∀ l ∈ lines, (∀ c ∈ l.data, isPyWhitespace c = true) → pyStrip l = "" := by
  have hmain : load_doi_list (joinLines lines) = lines.map pyStrip := by
    unfold load_doi_list
    rw [pyReadlines_joinLines lines hnl, List.map_map]
    refine List.map_congr_left ?_
    intro l _
    show pyStrip (String.mk (l.data ++ ['\n'])) = pyStrip l
    rw [stripList_newline, mk_data]
  refine ⟨hmain, by rw [hmain]; simp, ?_⟩
  intro l _ hws
  unfold pyStrip
  have : l.data.dropWhile isPyWhitespace = [] := List.dropWhile_eq_nil_iff.mpr hws
  rw [this]
  rfl

/-- Witness for C8: a three-line file whose middle line is whitespace-only
loads to three entries, the middle one the empty string. -/
theorem load_doi_list_spec_witness :
    load_doi_list (joinLines ["10.1/a", " ", "10.2/b"]) = ["10.1/a", "", "10.2/b"] := by
  have h := load_doi_list_spec ["10.1/a", " ", "10.2/b"] (by decide)
  exact h.1.trans (by decide)

/- ---------------------------------------------------------------- -/
/- Branch lemmas for `tryBody` and `downloadLoop`                    -/
/- ---------------------------------------------------------------- -/

/-- A raising page GET propagates to the except handler. -/
lemma tryBody_of_page_exc {doi u : String} {b : MirrorBehavior} {i t : Nat} {e : String}
    (hp : b.page = .error e) : tryBody doi u b i t = .error e := by
  simp [tryBody, hp]

/-- A non-200 page status ends the iteration in the continue path. -/
lemma tryBody_of_non200 {doi u : String} {b : MirrorBehavior} {i t : Nat} {p : PageResponse}
    {sc : Nat} (hp : b.page = .ok p) (hsc : p.status_code = sc) (hs : sc ≠ 200) :
    tryBody doi u b i t
      = .ok (.continueNext
          s!"Error downloading {doi}: Failed to fetch the webpage from {u}, status code: {sc}") := by
  simp [tryBody, hp, hsc, hs]

/-- An unparsable 200 response ends the iteration in the early return. -/
lemma tryBody_of_parse_fail {doi u : String} {b : MirrorBehavior} {i t : Nat} {p : PageResponse}
    (hp : b.page = .ok p) (hs : p.status_code = 200) (hpar : p.parses = false) :
    tryBody doi u b i t
      = .ok (.earlyReturn s!"Error downloading {doi}: Failed to parse HTML content") := by
  simp [tryBody, hp, hs, hpar]

/-- A parsed page with no XPath match ends the iteration in the early return. -/
lemma tryBody_of_no_match {doi u : String} {b : MirrorBehavior} {i t : Nat} {p : PageResponse}
    (hp : b.page = .ok p) (hs : p.status_code = 200) (hpar : p.parses = true)
    (hx : p.xpath = []) :
    tryBody doi u b i t
      = .ok (.earlyReturn s!"Error downloading {doi}: No download link found") := by
  simp [tryBody, hp, hs, hpar, hx]

/-- A raising file GET propagates to the except handler. -/
lemma tryBody_of_file_exc {doi u : String} {b : MirrorBehavior} {i t : Nat} {p : PageResponse}
    {link : String} {links : List String} {e : String}
    (hp : b.page = .ok p) (hs : p.status_code = 200) (hpar : p.parses = true)
    (hx : p.xpath = link :: links) (hf : b.file (ensure_scheme link) = .error e) :
    tryBody doi u b i t = .error e := by
  simp [tryBody, hp, hs, hpar, hx, hf]

/-- A non-200 file status ends the iteration in the early return. -/
lemma tryBody_of_file_non200 {doi u : String} {b : MirrorBehavior} {i t : Nat}
    {p : PageResponse} {link : String} {links : List String} {fr : FileResponse} {fsc : Nat}
    (hp : b.page = .ok p) (hs : p.status_code = 200) (hpar : p.parses = true)
    (hx : p.xpath = link :: links) (hf : b.file (ensure_scheme link) = .ok fr)
    (hfsc : fr.status_code = fsc) (hfs : fsc ≠ 200) :
    tryBody doi u b i t
      = .ok (.earlyReturn
          s!"Error downloading {doi}: Failed to retrieve file, status code: {fsc}") := by
  simp [tryBody, hp, hs, hpar, hx, hf, hfsc, hfs]

/-- A raising `get_file_size` propagates to the except handler. -/
lemma tryBody_of_size_exc {doi u : String} {b : MirrorBehavior} {i t : Nat}
    {p : PageResponse} {link : String} {links : List String} {fr : FileResponse} {e : String}
    (hp : b.page = .ok p) (hs : p.status_code = 200) (hpar : p.parses = true)
    (hx : p.xpath = link :: links) (hf : b.file (ensure_scheme link) = .ok fr)
    (hfs : fr.status_code = 200) (hgfs : get_file_size fr.content_length i t = .error e) :
    tryBody doi u b i t = .error e := by
  simp [tryBody, hp, hs, hpar, hx, hf, hfs, hgfs]

/-- A completed size step ends the iteration in the success return. -/
lemma tryBody_of_size_ok {doi u : String} {b : MirrorBehavior} {i t : Nat}
    {p : PageResponse} {link : String} {links : List String} {fr : FileResponse}
    {sz : Option Int} {line fn : String}
    (hp : b.page = .ok p) (hs : p.status_code = 200) (hpar : p.parses = true)
    (hx : p.xpath = link :: links) (hf : b.file (ensure_scheme link) = .ok fr)
    (hfs : fr.status_code = 200) (hgfs : get_file_size fr.content_length i t = .ok (sz, line))
    (hfn : sanitize_filename doi = fn) :
    tryBody doi u b i t
      = .ok (.success [line, s!"Downloaded {fn} successfully!"] fn (writeChunks fr.chunks)) := by
  simp [tryBody, hp, hs, hpar, hx, hf, hfs, hgfs, hfn]

/-- The `continue` outcome arises only from a non-200 page status. -/
lemma tryBody_continue_inv {doi u : String} {b : MirrorBehavior} {i t : Nat} {msg : String}
    (h : tryBody doi u b i t = .ok (.continueNext msg)) :
    ∃ p, b.page = .ok p ∧ p.status_code ≠ 200 := by
  cases hp : b.page with
  | error e => rw [tryBody_of_page_exc hp] at h; simp at h
  | ok p =>
      by_cases hs : p.status_code ≠ 200
      · exact ⟨p, rfl, hs⟩
      · push_neg at hs
        exfalso
        by_cases hpar : p.parses = true
        · cases hx : p.xpath with
          | nil => rw [tryBody_of_no_match hp hs hpar hx] at h; simp at h
          | cons link links =>
              cases hf : b.file (ensure_scheme link) with
              | error e => rw [tryBody_of_file_exc hp hs hpar hx hf] at h; simp at h
              | ok fr =>
                  by_cases hfs : fr.status_code ≠ 200
                  · rw [tryBody_of_file_non200 hp hs hpar hx hf rfl hfs] at h; simp at h
                  · push_neg at hfs
                    cases hgfs : get_file_size fr.content_length i t with
                    | error e =>
                        rw [tryBody_of_size_exc hp hs hpar hx hf hfs hgfs] at h
                        simp at h
                    | ok pr =>
                        obtain ⟨sz, line⟩ := pr
                        rw [tryBody_of_size_ok hp hs hpar hx hf hfs hgfs rfl] at h
                        simp at h
        · have hpar' : p.parses = false := by simpa using hpar
          rw [tryBody_of_parse_fail hp hs hpar'] at h
          simp at h

/-- The mirror loop after a continue outcome. -/
lemma downloadLoop_cons_continue {doi u : String} {b : MirrorBehavior} {i t : Nat}
    {msg : String} (h : tryBody doi u b i t = .ok (.continueNext msg))
    (rest : List (String × MirrorBehavior)) :
    downloadLoop doi i t ((u, b) :: rest)
      = { downloadLoop doi i t rest with
          console := msg :: (downloadLoop doi i t rest).console } := by
  simp [downloadLoop, h]

/-- The mirror loop after an early return outcome. -/
lemma downloadLoop_cons_early {doi u : String} {b : MirrorBehavior} {i t : Nat}
    {msg : String} (h : tryBody doi u b i t = .ok (.earlyReturn msg))
    (rest : List (String × MirrorBehavior)) :
    downloadLoop doi i t ((u, b) :: rest)
      = { console := [msg], errlog := "", written := none, finalFailure := false } := by
  simp [downloadLoop, h]

/-- The mirror loop after a success outcome. -/
lemma downloadLoop_cons_success {doi u : String} {b : MirrorBehavior} {i t : Nat}
    {cons : List String} {fn : String} {bytes : List Nat}
    (h : tryBody doi u b i t = .ok (.success cons fn bytes))
    (rest : List (String × MirrorBehavior)) :
    downloadLoop doi i t ((u, b) :: rest)
      = { console := cons, errlog := "", written := some (fn, bytes), finalFailure := false } := by
  simp [downloadLoop, h]

/-- The mirror loop after a caught exception. -/
lemma downloadLoop_cons_exc {doi u : String} {b : MirrorBehavior} {i t : Nat}
    {e : String} (h : tryBody doi u b i t = .error e)
    (rest : List (String × MirrorBehavior)) :
    downloadLoop doi i t ((u, b) :: rest)
      = { console := (s!"Error downloading {doi} from {u}: {e}")
            :: (downloadLoop doi i t rest).console
          errlog := s!"{doi} from {u} - {e}\n" ++ (downloadLoop doi i t rest).errlog
          written := (downloadLoop doi i t rest).written
          finalFailure := (downloadLoop doi i t rest).finalFailure } := by
  simp [downloadLoop, h]

/- ---------------------------------------------------------------- -/
/- C10: `get_file_size`                                              -/
/- ---------------------------------------------------------------- -/

/-- C10: `get_file_size` returns `none` exactly when the `content-length`
header is absent (the caught `KeyError`); a present value that parses yields
the size; a present value that does not parse as an integer raises a
`ValueError` that escapes `get_file_size`, and in `download` that exception
takes the per-mirror handler's next-mirror path (one errlog line, remaining
mirrors still tried) rather than the unknown-size path. -/
theorem get_file_size_spec :
    (∀ i t : Nat, get_file_size none i t
        = .ok (none, s!"Downloading paper {i + 1}/{t}, size: unknown")) ∧
    (∀ (i t : Nat) (v : String), pyParseInt v = none →
        get_file_size (some v) i t = .error s!"invalid literal for int() with base 10: {v}") ∧
    (∀ (i t : Nat) (v : String) (n : Int), pyParseInt v = some n →
        get_file_size (some v) i t
          = .ok (some n, s!"Downloading paper {i + 1}/{t}, size: {n} B")) ∧
    (∀ (i t : Nat) (h : Option String) (line : String),
        get_file_size h i t = .ok (none, line) → h = none) ∧
    (∀ (doi u : String) (b : MirrorBehavior) (i t : Nat)
        (rest : List (String × MirrorBehavior)) (p : PageResponse) (link : String)
        (links : List String) (fr : FileResponse) (v : String),
        b.page = .ok p → p.status_code = 200 → p.parses = true →
        p.xpath = link :: links → b.file (ensure_scheme link) = .ok fr →
        fr.status_code = 200 → fr.content_length = some v → pyParseInt v = none →
        ∃ e, tryBody doi u b i t = .error e ∧
          (downloadLoop doi i t ((u, b) :: rest)).written
            = (downloadLoop doi i t rest).written ∧
          (downloadLoop doi i t ((u, b) :: rest)).errlog
            = s!"{doi} from {u} - {e}\n" ++ (downloadLoop doi i t rest).errlog ∧
          (downloadLoop doi i t ((u, b) :: rest)).finalFailure
            = (downloadLoop doi i t rest).finalFailure) := by
  refine ⟨fun i t => rfl, ?_, ?_, ?_, ?_⟩
  · intro i t v hv
    simp [get_file_size, hv]
  · intro i t v n hv
    simp [get_file_size, hv]
  · intro i t h line hok
    cases h with
    | none => rfl
    | some v =>
        cases hv : pyParseInt v with
        | none => simp [get_file_size, hv] at hok
        | some n => simp [get_file_size, hv] at hok
  · intro doi u b i t rest p link links fr v hp hs hpar hx hf hfs hcl hpv
    have hgfs : get_file_size fr.content_length i t
        = .error s!"invalid literal for int() with base 10: {v}" := by
      rw [hcl]; simp [get_file_size, hpv]
    have htry := @tryBody_of_size_exc doi u b i t p link links fr _ hp hs hpar hx hf hfs hgfs
    refine ⟨_, htry, ?_, ?_, ?_⟩ <;> rw [downloadLoop_cons_exc htry rest]

/-- Witness for C10: an absent header yields the unknown-size line; a mirror
whose file response carries the malformed header `12a3` takes the exception
path — one errlog line naming the `ValueError`, and the loop falls through to
exhaustion (the final failure message) instead of aborting. -/
theorem get_file_size_spec_witness :
    get_file_size none 0 1 = .ok (none, "Downloading paper 1/1, size: unknown") ∧
    pyParseInt "12a3" = none ∧
    (downloadLoop "10.1/x" 0 1 [("https://sci-hub.se/", bMalformed)]).written = none ∧
    (downloadLoop "10.1/x" 0 1 [("https://sci-hub.se/", bMalformed)]).errlog
      = "10.1/x from https://sci-hub.se/ - invalid literal for int() with base 10: 12a3\n" ∧
    (downloadLoop "10.1/x" 0 1 [("https://sci-hub.se/", bMalformed)]).finalFailure = true := by
  have hpv : pyParseInt "12a3" = none := by decide
  have h := get_file_size_spec
  obtain ⟨e, htry, hw, herr, hff⟩ :=
    h.2.2.2.2 "10.1/x" "https://sci-hub.se/" bMalformed 0 1 [] ⟨200, true, ["//dl.org/p.pdf"]⟩
      "//dl.org/p.pdf" [] ⟨200, some "12a3", [[1]]⟩ "12a3" rfl rfl rfl rfl rfl rfl rfl hpv
  have hcomp : tryBody "10.1/x" "https://sci-hub.se/" bMalformed 0 1
      = .error "invalid literal for int() with base 10: 12a3" := rfl
  have he : e = "invalid literal for int() with base 10: 12a3" := by
    injection htry.symm.trans hcomp
  subst he
  refine ⟨(h.1 0 1).trans (by rfl), hpv, ?_, ?_, ?_⟩
  · rw [hw]; rfl
  · rw [herr]; decide
  · rw [hff]; rfl

/- ---------------------------------------------------------------- -/
/- C4: retry policy                                                  -/
/- ---------------------------------------------------------------- -/

/-- The retry loop succeeds exactly when some attempt within the budget gets
a non-forcelisted status and every earlier attempt was retryable. -/
lemma retryLoop_ok_iff (cfg : RetryConfig) (f : Nat → AttemptOutcome) :
    ∀ (r k : Nat) (c : Nat), retryLoop cfg f k r = .ok c ↔
      ∃ j, j < r ∧ f (k + j) = .status c ∧ cfg.status_forcelist.contains c = false ∧
        ∀ i, i < j → retryable cfg (f (k + i)) = true := by
  intro r
  induction r with
  | zero =>
      intro k c
      simp [retryLoop]
  | succ r ih =>
      intro k c
      have step : ∀ o, f k = o → o ≠ .status c ∨ cfg.status_forcelist.contains c = true →
          retryable cfg o = true →
          (retryLoop cfg f (k + 1) r = .ok c ↔
            ∃ j, j < r + 1 ∧ f (k + j) = .status c ∧
              cfg.status_forcelist.contains c = false ∧
              ∀ i, i < j → retryable cfg (f (k + i)) = true) := by
        intro o hfk hno hr
        rw [ih (k + 1) c]
        constructor
        · rintro ⟨j, hj, hfj, hc, hall⟩
          refine ⟨j + 1, by omega, by rwa [show k + (j + 1) = k + 1 + j by omega], hc, ?_⟩
          intro i hi
          cases i with
          | zero => rw [Nat.add_zero, hfk]; exact hr
          | succ i' =>
              rw [show k + (i' + 1) = k + 1 + i' by omega]
              exact hall i' (by omega)
        · rintro ⟨j, hj, hfj, hc, hall⟩
          cases j with
          | zero =>
              exfalso
              rw [Nat.add_zero] at hfj
              rcases hno with hne | hin
              · exact hne (hfk ▸ hfj)
              · rw [hin] at hc; cases hc
          | succ j' =>
              refine ⟨j', by omega, by rwa [show k + 1 + j' = k + (j' + 1) by omega], hc, ?_⟩
              intro i hi
              rw [show k + 1 + i = k + (i + 1) by omega]
              exact hall (i + 1) (by omega)
      cases hfk : f k with
      | connFailure =>
          rw [show retryLoop cfg f k (r + 1) = retryLoop cfg f (k + 1) r by
            rw [retryLoop, hfk]]
          exact step .connFailure hfk (Or.inl (by simp)) rfl
      | readFailure =>
          rw [show retryLoop cfg f k (r + 1) = retryLoop cfg f (k + 1) r by
            rw [retryLoop, hfk]]
          exact step .readFailure hfk (Or.inl (by simp)) rfl
      | status c' =>
          by_cases hc' : cfg.status_forcelist.contains c' = true
          · rw [show retryLoop cfg f k (r + 1) = retryLoop cfg f (k + 1) r by
              rw [retryLoop, hfk]
              show (if cfg.status_forcelist.contains c' = true then retryLoop cfg f (k + 1) r
                    else Except.ok c') = retryLoop cfg f (k + 1) r
              rw [if_pos hc']]
            refine step (.status c') hfk ?_ (by simp only [retryable]; exact hc')
            by_cases hcc : c' = c
            · subst hcc; exact Or.inr hc'
            · exact Or.inl (by simp [hcc])
          · rw [show retryLoop cfg f k (r + 1) = .ok c' by
              rw [retryLoop, hfk]
              show (if cfg.status_forcelist.contains c' = true then retryLoop cfg f (k + 1) r
                    else Except.ok c') = Except.ok c'
              rw [if_neg hc']]
            constructor
            · intro h
              have hcc : c' = c := by injection h
              subst hcc
              exact ⟨0, by omega, by rwa [Nat.add_zero], by simpa using hc',
                fun i hi => absurd hi (by omega)⟩
            · rintro ⟨j, hj, hfj, hc, hall⟩
              cases j with
              | zero =>
                  rw [Nat.add_zero, hfk] at hfj
                  have : c' = c := by injection hfj
                  rw [this]
              | succ j' =>
                  exfalso
                  have h0 := hall 0 (by omega)
                  rw [Nat.add_zero, hfk] at h0
                  simp only [retryable] at h0
                  exact hc' h0

/-- The retry loop raises exactly when every attempt in the budget was
retryable. -/
lemma retryLoop_error_iff (cfg : RetryConfig) (f : Nat → AttemptOutcome) :
    ∀ (r k : Nat), (∃ e, retryLoop cfg f k r = .error e) ↔
      ∀ i, i < r → retryable cfg (f (k + i)) = true := by
  intro r
  induction r with
  | zero =>
      intro k
      constructor
      · intro _ i hi; exact absurd hi (by omega)
      · intro _; exact ⟨"Max retries exceeded", rfl⟩
  | succ r ih =>
      intro k
      have step : ∀ o, f k = o → retryable cfg o = true →
          ((∃ e, retryLoop cfg f (k + 1) r = .error e) ↔
            ∀ i, i < r + 1 → retryable cfg (f (k + i)) = true) := by
        intro o hfk hr
        rw [ih (k + 1)]
        constructor
        · intro hall i hi
          cases i with
          | zero => rw [Nat.add_zero, hfk]; exact hr
          | succ i' =>
              rw [show k + (i' + 1) = k + 1 + i' by omega]
              exact hall i' (by omega)
        · intro hall i hi
          rw [show k + 1 + i = k + (i + 1) by omega]
          exact hall (i + 1) (by omega)
      cases hfk : f k with
      | connFailure =>
          rw [show retryLoop cfg f k (r + 1) = retryLoop cfg f (k + 1) r by
            rw [retryLoop, hfk]]
          exact step .connFailure hfk rfl
      | readFailure =>
          rw [show retryLoop cfg f k (r + 1) = retryLoop cfg f (k + 1) r by
            rw [retryLoop, hfk]]
          exact step .readFailure hfk rfl
      | status c' =>
          by_cases hc' : cfg.status_forcelist.contains c' = true
          · rw [show retryLoop cfg f k (r + 1) = retryLoop cfg f (k + 1) r by
              rw [retryLoop, hfk]
              show (if cfg.status_forcelist.contains c' = true then retryLoop cfg f (k + 1) r
                    else Except.ok c') = retryLoop cfg f (k + 1) r
              rw [if_pos hc']]
            exact step (.status c') hfk (by simp only [retryable]; exact hc')
          · rw [show retryLoop cfg f k (r + 1) = .ok c' by
              rw [retryLoop, hfk]
              show (if cfg.status_forcelist.contains c' = true then retryLoop cfg f (k + 1) r
                    else Except.ok c') = Except.ok c'
              rw [if_neg hc']]
            constructor
            · rintro ⟨e, he⟩; cases he
            · intro hall
              exfalso
              have h0 := hall 0 (by omega)
              rw [Nat.add_zero, hfk] at h0
              simp only [retryable] at h0
              exact hc' h0

/-- C4 (spec-modelled, since the retry machinery lives in `urllib3`, not in
this repository): a logical GET through the session built by
`create_session_with_retry` is retried only on connection failures, read
failures, and statuses in {500, 502, 504}; at most 3 attempts are made; the
backoff starts at factor 0.3 and doubles each attempt; and the caller sees
one eventual response exactly when some attempt within the budget returns a
non-retried status, and one eventual exception exactly when all 3 attempts
were retryable. -/
theorem create_session_with_retry_spec :
    (∀ o, retryable create_session_with_retry o = true ↔
        o = .connFailure ∨ o = .readFailure ∨
        o = .status 500 ∨ o = .status 502 ∨ o = .status 504) ∧
    (backoffDelay create_session_with_retry 0 = 3 / 10 ∧
      ∀ k, backoffDelay create_session_with_retry (k + 1)
        = 2 * backoffDelay create_session_with_retry k) ∧
    (∀ (f : Nat → AttemptOutcome) (c : Nat), sessionGet f = .ok c ↔
        ∃ j, j < 3 ∧ f j = .status c ∧ c ∉ ([500, 502, 504] : List Nat) ∧
          ∀ i, i < j → retryable create_session_with_retry (f i) = true) ∧
    (∀ f : Nat → AttemptOutcome, (∃ e, sessionGet f = .error e) ↔
        ∀ i, i < 3 → retryable create_session_with_retry (f i) = true) := by
  refine ⟨?_, ⟨?_, ?_⟩, ?_, ?_⟩
  · intro o
    cases o with
    | connFailure => simp [retryable]
    | readFailure => simp [retryable]
    | status c =>
        simp only [retryable]
        constructor
        · intro h
          have hm : c ∈ ([500, 502, 504] : List Nat) := by
            simpa [create_session_with_retry] using h
          simp only [List.mem_cons, List.not_mem_nil, or_false] at hm
          rcases hm with rfl | rfl | rfl <;> simp
        · rintro (h | h | h | h | h)
          · simp at h
          · simp at h
          · injection h with hc; subst hc; decide
          · injection h with hc; subst hc; decide
          · injection h with hc; subst hc; decide
  · unfold backoffDelay create_session_with_retry
    norm_num
  · intro k
    unfold backoffDelay
    ring
  · intro f c
    rw [show sessionGet f
        = retryLoop create_session_with_retry f 0 create_session_with_retry.total from rfl]
    rw [retryLoop_ok_iff]
    constructor
    · rintro ⟨j, hj, hfj, hc, hall⟩
      rw [Nat.zero_add] at hfj
      refine ⟨j, hj, hfj, by simpa [create_session_with_retry] using hc, ?_⟩
      intro i hi
      have := hall i hi
      rwa [Nat.zero_add] at this
    · rintro ⟨j, hj, hfj, hc, hall⟩
      refine ⟨j, hj, by rwa [Nat.zero_add], by simpa [create_session_with_retry] using hc, ?_⟩
      intro i hi
      rw [Nat.zero_add]
      exact hall i hi
  · intro f
    rw [show sessionGet f
        = retryLoop create_session_with_retry f 0 create_session_with_retry.total from rfl]
    rw [retryLoop_error_iff]
    constructor
    · intro h i hi
      have := h i hi
      rwa [Nat.zero_add] at this
    · intro h i hi
      rw [Nat.zero_add]
      exact h i hi

/-- Witness for C4: a transient 502 followed by a 200 succeeds within the
budget without a caller-visible error; three successive 502s exhaust the
budget and surface one exception. -/
theorem create_session_with_retry_spec_witness :
    sessionGet outcomes502then200 = .ok 200 ∧
    (∃ e, sessionGet outcomesAll502 = .error e) := by
  have h := create_session_with_retry_spec
  constructor
  · refine (h.2.2.1 outcomes502then200 200).mpr ⟨1, by omega, rfl, by decide, ?_⟩
    intro i hi
    have : i = 0 := by omega
    subst this
    exact (h.1 (outcomes502then200 0)).mpr (by decide)
  · refine (h.2.2.2 outcomesAll502).mpr ?_
    intro i _
    rw [show outcomesAll502 i = .status 502 from rfl]
    exact (h.1 (.status 502)).mpr (by decide)

/- ---------------------------------------------------------------- -/
/- C1: asymmetric sub-step failure policy                            -/
/- ---------------------------------------------------------------- -/

/-- C1: sub-step failures are handled asymmetrically.  A non-200 page status
continues with the next mirror (the loop's result is the remaining mirrors'
result, with no errlog line added); unparsable HTML, a missing XPath match,
and a non-200 file status each return immediately — the remaining mirrors
are never consulted (the result is the same for any tail), no file is
written, and the final-failure message cannot fire; and the batch driver
still processes every identifier in the list. -/
theorem download_failure_asymmetry :
    (∀ (doi u : String) (b : MirrorBehavior) (i t : Nat)
        (rest : List (String × MirrorBehavior)) (p : PageResponse),
        b.page = .ok p → p.status_code ≠ 200 →
        (downloadLoop doi i t ((u, b) :: rest)).written
          = (downloadLoop doi i t rest).written ∧
        (downloadLoop doi i t ((u, b) :: rest)).errlog
          = (downloadLoop doi i t rest).errlog ∧
        (downloadLoop doi i t ((u, b) :: rest)).finalFailure
          = (downloadLoop doi i t rest).finalFailure) ∧
    (∀ (doi u : String) (b : MirrorBehavior) (i t : Nat)
        (rest rest' : List (String × MirrorBehavior)) (p : PageResponse),
        b.page = .ok p → p.status_code = 200 → p.parses = false →
        downloadLoop doi i t ((u, b) :: rest) = downloadLoop doi i t ((u, b) :: rest') ∧
        (downloadLoop doi i t ((u, b) :: rest)).written = none ∧
        (downloadLoop doi i t ((u, b) :: rest)).errlog = "" ∧
        (downloadLoop doi i t ((u, b) :: rest)).finalFailure = false) ∧
    (∀ (doi u : String) (b : MirrorBehavior) (i t : Nat)
        (rest rest' : List (String × MirrorBehavior)) (p : PageResponse),
        b.page = .ok p → p.status_code = 200 → p.parses = true → p.xpath = [] →
        downloadLoop doi i t ((u, b) :: rest) = downloadLoop doi i t ((u, b) :: rest') ∧
        (downloadLoop doi i t ((u, b) :: rest)).written = none ∧
        (downloadLoop doi i t ((u, b) :: rest)).errlog = "" ∧
        (downloadLoop doi i t ((u, b) :: rest)).finalFailure = false) ∧
    (∀ (doi u : String) (b : MirrorBehavior) (i t : Nat)
        (rest rest' : List (String × MirrorBehavior)) (p : PageResponse)
        (link : String) (links : List String) (fr : FileResponse),
        b.page = .ok p → p.status_code = 200 → p.parses = true →
        p.xpath = link :: links → b.file (ensure_scheme link) = .ok fr →
        fr.status_code ≠ 200 →
        downloadLoop doi i t ((u, b) :: rest) = downloadLoop doi i t ((u, b) :: rest') ∧
        (downloadLoop doi i t ((u, b) :: rest)).written = none ∧
        (downloadLoop doi i t ((u, b) :: rest)).errlog = "" ∧
        (downloadLoop doi i t ((u, b) :: rest)).finalFailure = false) ∧
    (∀ (t' : Nat) (ms : List String) (beh : String → String → MirrorBehavior) (i' : Nat)
        (dois : List String), (runBatch t' ms beh i' dois).length = dois.length) := by
  refine ⟨?_, ?_, ?_, ?_, ?_⟩
  · intro doi u b i t rest p hp hs
    have htry := @tryBody_of_non200 doi u b i t p (p.status_code) hp rfl hs
    refine ⟨?_, ?_, ?_⟩ <;> rw [downloadLoop_cons_continue htry rest]
  · intro doi u b i t rest rest' p hp hs hpar
    have htry := @tryBody_of_parse_fail doi u b i t p hp hs hpar
    refine ⟨?_, ?_, ?_, ?_⟩ <;>
      rw [downloadLoop_cons_early htry rest] <;>
      rw [downloadLoop_cons_early htry rest']
  · intro doi u b i t rest rest' p hp hs hpar hx
    have htry := @tryBody_of_no_match doi u b i t p hp hs hpar hx
    refine ⟨?_, ?_, ?_, ?_⟩ <;>
      rw [downloadLoop_cons_early htry rest] <;>
      rw [downloadLoop_cons_early htry rest']
  · intro doi u b i t rest rest' p link links fr hp hs hpar hx hf hfs
    have htry := @tryBody_of_file_non200 doi u b i t p link links fr (fr.status_code)
      hp hs hpar hx hf rfl hfs
    refine ⟨?_, ?_, ?_, ?_⟩ <;>
      rw [downloadLoop_cons_early htry rest] <;>
      rw [downloadLoop_cons_early htry rest']
  · intro t' ms beh i' dois
    induction dois generalizing i' with
    | nil => rfl
    | cons d rest ih => simp [runBatch, ih]

/-- Witness for C1: with a 404 mirror first, the loop's outcome is that of
the remaining mirrors; with a parse failure, a missing match, or a 500 file
fetch first, nothing is written even though a working mirror follows; and a
two-identifier batch yields two results. -/
theorem download_failure_asymmetry_witness :
    (downloadLoop "d" 0 2 [("m1", bNon200), ("m2", bGood)]).written
      = (downloadLoop "d" 0 2 [("m2", bGood)]).written ∧
    (downloadLoop "d" 0 1 [("m1", bNoParse), ("m2", bGood)]).written = none ∧
    (downloadLoop "d" 0 1 [("m1", bNoMatch), ("m2", bGood)]).written = none ∧
    (downloadLoop "d" 0 1 [("m1", bFileNon200), ("m2", bGood)]).written = none ∧
    (runBatch 2 ["m1"] (fun _ _ => bNon200) 0 ["d1", "d2"]).length = 2 := by
  have h := download_failure_asymmetry
  refine ⟨?_, ?_, ?_, ?_, ?_⟩
  · exact (h.1 "d" "m1" bNon200 0 2 [("m2", bGood)] ⟨404, true, []⟩ rfl (by decide)).1
  · exact (h.2.1 "d" "m1" bNoParse 0 1 [("m2", bGood)] [] ⟨200, false, []⟩ rfl rfl rfl).2.1
  · exact (h.2.2.1 "d" "m1" bNoMatch 0 1 [("m2", bGood)] [] ⟨200, true, []⟩ rfl rfl rfl rfl).2.1
  · exact (h.2.2.2.1 "d" "m1" bFileNon200 0 1 [("m2", bGood)] [] ⟨200, true, ["//dl.org/p.pdf"]⟩
      "//dl.org/p.pdf" [] ⟨500, none, []⟩ rfl rfl rfl rfl rfl (by decide)).2.1
  · exact h.2.2.2.2 2 ["m1"] (fun _ _ => bNon200) 0 ["d1", "d2"]

/- ---------------------------------------------------------------- -/
/- C2: per-mirror exception handling                                 -/
/- ---------------------------------------------------------------- -/

/-- C2: any exception raised during a mirror's fetch-parse-download attempt
(a raising page GET, a raising file GET, or the `ValueError` escaping
`get_file_size`) surfaces as an `Except.error` of `tryBody`; the handler in
`download` catches it — the loop's result is a `DownloadResult`, never a
propagated exception — prints one console line, appends exactly the line
`{identifier} from {mirror} - {exception text}` with a trailing newline to
the error log, and continues with the next mirror in the list. -/
theorem download_exception_spec :
    (∀ (doi u : String) (b : MirrorBehavior) (i t : Nat) (e : String),
        b.page = .error e → tryBody doi u b i t = .error e) ∧
    (∀ (doi u : String) (b : MirrorBehavior) (i t : Nat) (p : PageResponse)
        (link : String) (links : List String) (e : String),
        b.page = .ok p → p.status_code = 200 → p.parses = true →
        p.xpath = link :: links → b.file (ensure_scheme link) = .error e →
        tryBody doi u b i t = .error e) ∧
    (∀ (doi u : String) (b : MirrorBehavior) (i t : Nat) (p : PageResponse)
        (link : String) (links : List String) (fr : FileResponse) (e : String),
        b.page = .ok p → p.status_code = 200 → p.parses = true →
        p.xpath = link :: links → b.file (ensure_scheme link) = .ok fr →
        fr.status_code = 200 → get_file_size fr.content_length i t = .error e →
        tryBody doi u b i t = .error e) ∧
    (∀ (doi u : String) (b : MirrorBehavior) (i t : Nat)
        (rest : List (String × MirrorBehavior)) (e : String),
        tryBody doi u b i t = .error e →
        (downloadLoop doi i t ((u, b) :: rest)).errlog
          = s!"{doi} from {u} - {e}\n" ++ (downloadLoop doi i t rest).errlog ∧
        (downloadLoop doi i t ((u, b) :: rest)).console
          = s!"Error downloading {doi} from {u}: {e}"
              :: (downloadLoop doi i t rest).console ∧
        (downloadLoop doi i t ((u, b) :: rest)).written
          = (downloadLoop doi i t rest).written ∧
        (downloadLoop doi i t ((u, b) :: rest)).finalFailure
          = (downloadLoop doi i t rest).finalFailure) := by
  refine ⟨?_, ?_, ?_, ?_⟩
  · intro doi u b i t e hp
    exact tryBody_of_page_exc hp
  · intro doi u b i t p link links e hp hs hpar hx hf
    exact tryBody_of_file_exc hp hs hpar hx hf
  · intro doi u b i t p link links fr e hp hs hpar hx hf hfs hgfs
    exact tryBody_of_size_exc hp hs hpar hx hf hfs hgfs
  · intro doi u b i t rest e htry
    refine ⟨?_, ?_, ?_, ?_⟩ <;> rw [downloadLoop_cons_exc htry rest]

/-- Witness for C2: a mirror whose page GET raises gets one newline-terminated
errlog line in the stated format, and the loop continues to the next mirror,
which completes the download. -/
theorem download_exception_spec_witness :
    (downloadLoop "d" 0 1 [("m1", bPageExc), ("m2", bGood)]).errlog
      = "d from m1 - ConnectionError: refused\n" ∧
    (downloadLoop "d" 0 1 [("m1", bPageExc), ("m2", bGood)]).written
      = some ("d.pdf", [1, 2, 3]) := by
  have h := download_exception_spec
  have htry := h.1 "d" "m1" bPageExc 0 1 "ConnectionError: refused" rfl
  obtain ⟨herr, hcons, hw, hff⟩ :=
    h.2.2.2 "d" "m1" bPageExc 0 1 [("m2", bGood)] "ConnectionError: refused" htry
  constructor
  · rw [herr]; decide
  · rw [hw]; decide

/- ---------------------------------------------------------------- -/
/- C5: absent-link outcome is console-only                           -/
/- ---------------------------------------------------------------- -/

/-- C5: when a mirror's response parses but the XPath yields no match, the
routine writes no file, appends nothing to the error log, prints only the
absent-link console line, does not print the final failure message, and
never consults the remaining mirrors (the result is the same for any tail);
no exception passes its boundary — the loop returns an ordinary result. -/
theorem download_no_match_spec
    (doi u : String) (b : MirrorBehavior) (i t : Nat)
    (rest rest' : List (String × MirrorBehavior)) (p : PageResponse)
    (hp : b.page = .ok p) (hs : p.status_code = 200) (hpar : p.parses = true)
    (hx : p.xpath = []) :
    (downloadLoop doi i t ((u, b) :: rest)).written = none ∧
    (downloadLoop doi i t ((u, b) :: rest)).errlog = "" ∧
    (downloadLoop doi i t ((u, b) :: rest)).console
      = [s!"Error downloading {doi}: No download link found"] ∧
    (downloadLoop doi i t ((u, b) :: rest)).finalFailure = false ∧
    downloadLoop doi i t ((u, b) :: rest) = downloadLoop doi i t ((u, b) :: rest') := by
  have htry := @tryBody_of_no_match doi u b i t p hp hs hpar hx
  refine ⟨?_, ?_, ?_, ?_, ?_⟩ <;>
    rw [downloadLoop_cons_early htry rest] <;>
    rw [downloadLoop_cons_early htry rest']

/-- Witness for C5: a no-match mirror followed by a working mirror still
yields no file, an empty error log, and exactly the absent-link console
line. -/
theorem download_no_match_spec_witness :
    (downloadLoop "d" 0 1 [("m1", bNoMatch), ("m2", bGood)]).written = none ∧
    (downloadLoop "d" 0 1 [("m1", bNoMatch), ("m2", bGood)]).errlog = "" ∧
    (downloadLoop "d" 0 1 [("m1", bNoMatch), ("m2", bGood)]).console
      = ["Error downloading d: No download link found"] := by
  obtain ⟨hw, herr, hcons, hff, _⟩ :=
    download_no_match_spec "d" "m1" bNoMatch 0 1 [("m2", bGood)] [] ⟨200, true, []⟩
      rfl rfl rfl rfl
  exact ⟨hw, herr, hcons.trans (by decide)⟩

/- ---------------------------------------------------------------- -/
/- C6: exhaustion and the final failure message                      -/
/- ---------------------------------------------------------------- -/

/-- Counterexample for C6: exhaustion is NOT only possible via repeated
non-200 first-stage statuses.  A mirror whose page fetch returns 200 but
whose file GET raises takes the caught-exception path, which also continues
the loop; with one such mirror the loop completes without an early return
and the final failure message fires even though the page status was 200. -/
theorem download_exhaustion_claim_false :
    (downloadLoop "d" 0 1 [("m", bFileExc)]).finalFailure = true ∧
    bFileExc.page = .ok ⟨200, true, ["//dl.org/p.pdf"]⟩ := by
  constructor
  · decide
  · rfl

/-- C6 (amended): the final failure message fires exactly when every mirror's
attempt ends in the loop's continue path — a non-200 initial page status OR a
caught exception anywhere in the attempt; and the non-exceptional `continue`
outcome arises only from a non-200 initial page status. -/
theorem download_final_failure_amended (doi : String) (i t : Nat)
    (ms : List (String × MirrorBehavior)) :
    ((downloadLoop doi i t ms).finalFailure = true ↔
      ∀ ub ∈ ms, attemptContinues doi ub.1 ub.2 i t) ∧
    (∀ (u : String) (b : MirrorBehavior) (msg : String),
      tryBody doi u b i t = .ok (.continueNext msg) →
      ∃ p, b.page = .ok p ∧ p.status_code ≠ 200) := by
  constructor
  · induction ms with
    | nil => simp [downloadLoop]
    | cons ub rest ih =>
        obtain ⟨u, b⟩ := ub
        cases htry : tryBody doi u b i t with
        | error e =>
            rw [downloadLoop_cons_exc htry rest]
            show (downloadLoop doi i t rest).finalFailure = true ↔ _
            constructor
            · intro hff x hx
              rcases List.mem_cons.mp hx with rfl | hx'
              · exact Or.inr ⟨e, htry⟩
              · exact (ih.mp hff) x hx'
            · intro hall
              exact ih.mpr (fun x hx => hall x (List.mem_cons_of_mem _ hx))
        | ok step =>
            cases step with
            | continueNext msg =>
                rw [downloadLoop_cons_continue htry rest]
                show (downloadLoop doi i t rest).finalFailure = true ↔ _
                constructor
                · intro hff x hx
                  rcases List.mem_cons.mp hx with rfl | hx'
                  · exact Or.inl ⟨msg, htry⟩
                  · exact (ih.mp hff) x hx'
                · intro hall
                  exact ih.mpr (fun x hx => hall x (List.mem_cons_of_mem _ hx))
            | earlyReturn msg =>
                rw [downloadLoop_cons_early htry rest]
                show false = true ↔ _
                constructor
                · intro hff; exact absurd hff (by simp)
                · intro hall
                  exfalso
                  rcases hall (u, b) (List.mem_cons_self _ _) with ⟨m, hm⟩ | ⟨e, he⟩
                  · rw [htry] at hm; simp at hm
                  · rw [htry] at he; simp at he
            | success cons fn bytes =>
                rw [downloadLoop_cons_success htry rest]
                show false = true ↔ _
                constructor
                · intro hff; exact absurd hff (by simp)
                · intro hall
                  exfalso
                  rcases hall (u, b) (List.mem_cons_self _ _) with ⟨m, hm⟩ | ⟨e, he⟩
                  · rw [htry] at hm; simp at hm
                  · rw [htry] at he; simp at he
  · intro u b msg h
    exact tryBody_continue_inv h

/-- Witness for C6 (amended): a single 404 mirror exhausts the list, so the
final failure message fires. -/
theorem download_final_failure_amended_witness :
    (downloadLoop "d" 0 1 [("m", bNon200)]).finalFailure = true := by
  have h := download_final_failure_amended "d" 0 1 [("m", bNon200)]
  refine h.1.mpr ?_
  intro ub hub
  rcases List.mem_cons.mp hub with rfl | h'
  · exact Or.inl ⟨_, @tryBody_of_non200 "d" "m" bNon200 0 1 ⟨404, true, []⟩ 404
      rfl rfl (by decide)⟩
  · simp at h'
